import Mathlib

/-!
Verification of the Corporal Theremin backend (`backend/theremin_backend.py`,
`backend/main.py`) against its natural-language specification.

The Python code is shallowly embedded:
* float arithmetic of the parameter-mapping step is modelled over `ℚ`
  (pixel coordinates are integers, ranges are exact rationals);
* float arithmetic of the audio engine (sine waves, phase accumulation)
  is modelled over `ℝ`;
* the fallible `setup`/`cleanup`/`stop` resource logic of `CorporalTheremin`
  is modelled by explicit state passing with `Option`-carried exceptions.
-/

namespace ThereminCorporal

/-- Embedding of the `ThereminConfig` dataclass.  Integer-valued fields stay
integers, float fields become rationals, `frequency_range`/`volume_range`
stay pairs, and the defaults are those of the Python dataclass. -/
structure ThereminConfig where
  camera_index : ℤ := 0
  frame_width : ℤ := 640
  frame_height : ℤ := 480
  sample_rate : ℤ := 44100
  frames_per_buffer : ℤ := 256
  frequency_range : ℚ × ℚ := (200, 1000)
  volume_range : ℚ × ℚ := (0, 1)
  wave_type : String := "sine"
  smooth_factor : ℚ := 1/10
  left_hand_controls : String := "volume"
  right_hand_controls : String := "frequency"
deriving DecidableEq

/-- The frequency interpolation performed by `map_hand_to_parameters` when a
hand controls frequency: `freq_min + (freq_max - freq_min) * normalized_y`
with `normalized_y = y / frame_height`.  No clamp in the source. -/
def interpFreq (cfg : ThereminConfig) (y : ℤ) : ℚ :=
  cfg.frequency_range.1 +
    (cfg.frequency_range.2 - cfg.frequency_range.1) * ((y : ℚ) / (cfg.frame_height : ℚ))

/-- The volume interpolation performed by `map_hand_to_parameters` when a
hand controls volume: the inverted interpolation
`vol_max - (vol_max - vol_min) * normalized_y`, then the clamp
`max(vol_min, min(vol_max, volume))` from the source. -/
def interpVol (cfg : ThereminConfig) (y : ℤ) : ℚ :=
  let v := cfg.volume_range.2 -
    (cfg.volume_range.2 - cfg.volume_range.1) * ((y : ℚ) / (cfg.frame_height : ℚ))
  max cfg.volume_range.1 (min cfg.volume_range.2 v)

/-- Embedding of `CorporalTheremin.map_hand_to_parameters`.  Hands are
`Option (ℤ × ℤ)` pixel positions (`None` or an `(x, y)` tuple; a tuple is
always truthy in Python).  The left-hand block is `if controls == "volume"
... elif controls == "frequency"`, the right-hand block is `if controls ==
"frequency" ... elif controls == "volume"`, starting from the defaults
`frequency = 440.0`, `volume = 0.0`; finally, if both hands are absent the
volume is forced to `0.0`. -/
def map_hand_to_parameters (cfg : ThereminConfig)
    (left_hand right_hand : Option (ℤ × ℤ)) : ℚ × ℚ :=
  let fv1 : ℚ × ℚ :=
    match left_hand with
    | some lh =>
      if cfg.left_hand_controls = "volume" then (440, interpVol cfg lh.2)
      else if cfg.left_hand_controls = "frequency" then (interpFreq cfg lh.2, 0)
      else (440, 0)
    | none => (440, 0)
  let fv2 : ℚ × ℚ :=
    match right_hand with
    | some rh =>
      if cfg.right_hand_controls = "frequency" then (interpFreq cfg rh.2, fv1.2)
      else if cfg.right_hand_controls = "volume" then (fv1.1, interpVol cfg rh.2)
      else fv1
    | none => fv1
  if left_hand = none ∧ right_hand = none then (fv2.1, 0) else fv2

/-- The clamped volume interpolation always lies inside the configured
volume range, as soon as that range is well ordered. -/
lemma interpVol_mem (cfg : ThereminConfig) (y : ℤ)
    (hv : cfg.volume_range.1 ≤ cfg.volume_range.2) :
    cfg.volume_range.1 ≤ interpVol cfg y ∧ interpVol cfg y ≤ cfg.volume_range.2 := by
  unfold interpVol
  constructor
  · exact le_max_left _ _
  · exact max_le (le_trans hv (le_refl _)) (min_le_left _ _) |>.trans (le_refl _)

/-- For a y-coordinate inside `[0, frame_height]`, the frequency
interpolation lies inside the configured frequency range. -/
lemma interpFreq_mem (cfg : ThereminConfig) (y : ℤ)
    (hH : 0 < cfg.frame_height) (hy0 : 0 ≤ y) (hy1 : y ≤ cfg.frame_height)
    (hf : cfg.frequency_range.1 ≤ cfg.frequency_range.2) :
    cfg.frequency_range.1 ≤ interpFreq cfg y ∧ interpFreq cfg y ≤ cfg.frequency_range.2 := by
  unfold interpFreq
  have hHq : (0 : ℚ) < (cfg.frame_height : ℚ) := by exact_mod_cast hH
  have ht0 : (0 : ℚ) ≤ (y : ℚ) / (cfg.frame_height : ℚ) :=
    div_nonneg (by exact_mod_cast hy0) hHq.le
  have ht1 : (y : ℚ) / (cfg.frame_height : ℚ) ≤ 1 :=
    (div_le_one hHq).mpr (by exact_mod_cast hy1)
  constructor
  · nlinarith [mul_nonneg (sub_nonneg.mpr hf) ht0]
  · nlinarith [mul_le_of_le_one_right (sub_nonneg.mpr hf) ht1]

/-- For a y-coordinate inside `[0, frame_height]` and a well-ordered volume
range, the clamp in the volume interpolation is the identity, leaving the
pure inverted interpolation. -/
lemma interpVol_eq (cfg : ThereminConfig) (y : ℤ)
    (hH : 0 < cfg.frame_height) (hy0 : 0 ≤ y) (hy1 : y ≤ cfg.frame_height)
    (hv : cfg.volume_range.1 ≤ cfg.volume_range.2) :
    interpVol cfg y = cfg.volume_range.2 -
      (cfg.volume_range.2 - cfg.volume_range.1) * ((y : ℚ) / (cfg.frame_height : ℚ)) := by
  dsimp only [interpVol]
  have hHq : (0 : ℚ) < (cfg.frame_height : ℚ) := by exact_mod_cast hH
  have ht0 : (0 : ℚ) ≤ (y : ℚ) / (cfg.frame_height : ℚ) :=
    div_nonneg (by exact_mod_cast hy0) hHq.le
  have ht1 : (y : ℚ) / (cfg.frame_height : ℚ) ≤ 1 :=
    (div_le_one hHq).mpr (by exact_mod_cast hy1)
  have hub : cfg.volume_range.2 -
      (cfg.volume_range.2 - cfg.volume_range.1) * ((y : ℚ) / (cfg.frame_height : ℚ)) ≤
      cfg.volume_range.2 := by
    nlinarith [mul_nonneg (sub_nonneg.mpr hv) ht0]
  have hlb : cfg.volume_range.1 ≤ cfg.volume_range.2 -
      (cfg.volume_range.2 - cfg.volume_range.1) * ((y : ℚ) / (cfg.frame_height : ℚ)) := by
    nlinarith [mul_le_of_le_one_right (sub_nonneg.mpr hv) ht1]
  rw [min_eq_right hub, max_eq_right hlb]

/-- C2: with both hands absent, `map_hand_to_parameters` returns volume
exactly zero (and the default frequency 440), for every configuration and
whatever the last known frequency was. -/
theorem map_both_hands_absent_silent (cfg : ThereminConfig) :
    (map_hand_to_parameters cfg none none).2 = 0 := by
  simp [map_hand_to_parameters]

/-- The default configuration of the `ThereminConfig` dataclass. -/
def defaultConfig : ThereminConfig := {}

/-- A configuration whose frequency range does not contain the default
frequency 440.0 and whose volume range does not contain the default volume
0.0; hand-to-control assignment is the default one. -/
def cfgC1 : ThereminConfig := { frequency_range := (500, 1000), volume_range := (1/2, 1) }

/-- C1 counterexample: with frequency range `(500, 1000)` and volume range
`(1/2, 1)`, a left hand at the valid y-coordinate 240 (controlling volume)
leaves the frequency at its default 440.0, below the configured range, and
a right hand at the same valid coordinate (controlling frequency) leaves
the volume at its default 0.0, below the configured range. -/
theorem map_range_counterexample :
    ((0 : ℤ) ≤ 240 ∧ (240 : ℤ) ≤ cfgC1.frame_height) ∧
    (map_hand_to_parameters cfgC1 (some (100, 240)) none).1 < cfgC1.frequency_range.1 ∧
    (map_hand_to_parameters cfgC1 none (some (100, 240))).2 < cfgC1.volume_range.1 := by
  norm_num [map_hand_to_parameters, interpVol, interpFreq, cfgC1, min_def, max_def,
    Option.some_ne_none]

/-- C1, amended: for every configuration whose frequency range contains the
default frequency 440.0 and whose volume range contains the default volume
0.0 (as the default configuration does), and for hands whose y-coordinates
lie in `[0, frame_height]`, the frequency and volume returned by
`map_hand_to_parameters` lie within the configured ranges. -/
theorem map_hand_in_range (cfg : ThereminConfig) (lh rh : Option (ℤ × ℤ))
    (hH : 0 < cfg.frame_height)
    (hv0 : cfg.volume_range.1 ≤ 0) (hv1 : 0 ≤ cfg.volume_range.2)
    (hf0 : cfg.frequency_range.1 ≤ 440) (hf1 : 440 ≤ cfg.frequency_range.2)
    (hlh : ∀ p, lh = some p → 0 ≤ p.2 ∧ p.2 ≤ cfg.frame_height)
    (hrh : ∀ p, rh = some p → 0 ≤ p.2 ∧ p.2 ≤ cfg.frame_height) :
    cfg.frequency_range.1 ≤ (map_hand_to_parameters cfg lh rh).1 ∧
    (map_hand_to_parameters cfg lh rh).1 ≤ cfg.frequency_range.2 ∧
    cfg.volume_range.1 ≤ (map_hand_to_parameters cfg lh rh).2 ∧
    (map_hand_to_parameters cfg lh rh).2 ≤ cfg.volume_range.2 := by
  have hv : cfg.volume_range.1 ≤ cfg.volume_range.2 := hv0.trans hv1
  have hf : cfg.frequency_range.1 ≤ cfg.frequency_range.2 := hf0.trans hf1
  cases lh with
  | none =>
    cases rh with
    | none =>
      refine ⟨?_, ?_, ?_, ?_⟩ <;> simp [map_hand_to_parameters] <;> linarith
    | some q =>
      obtain ⟨hq0, hq1⟩ := hrh q rfl
      have Fq := interpFreq_mem cfg q.2 hH hq0 hq1 hf
      have Vq := interpVol_mem cfg q.2 hv
      by_cases hR1 : cfg.right_hand_controls = "frequency" <;>
        by_cases hR2 : cfg.right_hand_controls = "volume" <;>
        simp [map_hand_to_parameters, hR1, hR2] <;>
        refine ⟨?_, ?_, ?_, ?_⟩ <;> linarith
  | some p =>
    obtain ⟨hp0, hp1⟩ := hlh p rfl
    have Fp := interpFreq_mem cfg p.2 hH hp0 hp1 hf
    have Vp := interpVol_mem cfg p.2 hv
    cases rh with
    | none =>
      by_cases hL1 : cfg.left_hand_controls = "volume" <;>
        by_cases hL2 : cfg.left_hand_controls = "frequency" <;>
        simp [map_hand_to_parameters, hL1, hL2] <;>
        refine ⟨?_, ?_, ?_, ?_⟩ <;> linarith
    | some q =>
      obtain ⟨hq0, hq1⟩ := hrh q rfl
      have Fq := interpFreq_mem cfg q.2 hH hq0 hq1 hf
      have Vq := interpVol_mem cfg q.2 hv
      by_cases hL1 : cfg.left_hand_controls = "volume" <;>
        by_cases hL2 : cfg.left_hand_controls = "frequency" <;>
        by_cases hR1 : cfg.right_hand_controls = "frequency" <;>
        by_cases hR2 : cfg.right_hand_controls = "volume" <;>
        simp [map_hand_to_parameters, hL1, hL2, hR1, hR2] <;>
        refine ⟨?_, ?_, ?_, ?_⟩ <;> linarith

/-- Witness for the amended C1 at the default configuration with a left
hand at y = 240 and no right hand. -/
theorem map_hand_in_range_witness :
    ((0 : ℤ) < defaultConfig.frame_height ∧
      defaultConfig.volume_range.1 ≤ 0 ∧ (0 : ℚ) ≤ defaultConfig.volume_range.2 ∧
      defaultConfig.frequency_range.1 ≤ 440 ∧ (440 : ℚ) ≤ defaultConfig.frequency_range.2) ∧
    (defaultConfig.frequency_range.1 ≤
        (map_hand_to_parameters defaultConfig (some (100, 240)) none).1 ∧
      (map_hand_to_parameters defaultConfig (some (100, 240)) none).1 ≤
        defaultConfig.frequency_range.2 ∧
      defaultConfig.volume_range.1 ≤
        (map_hand_to_parameters defaultConfig (some (100, 240)) none).2 ∧
      (map_hand_to_parameters defaultConfig (some (100, 240)) none).2 ≤
        defaultConfig.volume_range.2) :=
  ⟨by decide,
    map_hand_in_range defaultConfig (some (100, 240)) none (by decide) (by decide)
      (by decide) (by decide) (by decide)
      (by intro p h; injection h with h1; subst h1; decide)
      (fun p h => Option.noConfusion h)⟩

/-- C6 counterexample: at the default configuration, a present left hand
(controlling volume) at the out-of-range y-coordinate 960 yields the
clamped volume 0, not the claimed inverted interpolation
`vol_max - (vol_max - vol_min) * (y / frame_height) = -1`. -/
theorem map_interpolation_counterexample :
    (map_hand_to_parameters defaultConfig (some (100, 960)) none).2 ≠
      defaultConfig.volume_range.2 -
        (defaultConfig.volume_range.2 - defaultConfig.volume_range.1) *
          ((960 : ℚ) / (defaultConfig.frame_height : ℚ)) := by
  norm_num [map_hand_to_parameters, interpVol, defaultConfig, min_def, max_def,
    Option.some_ne_none]

/-- C6, amended: for every present hand whose y-coordinate lies in the
valid range `[0, frame_height]`, `map_hand_to_parameters` normalizes y to
`y / frame_height` and interpolates linearly: under the assignment
left=volume/right=frequency, the volume is the inverted interpolation
`vol_max - (vol_max - vol_min) * (y/frame_height)` and the frequency is
`freq_min + (freq_max - freq_min) * (y/frame_height)`; symmetrically under
the swapped assignment.  (For y-coordinates outside the valid range the
volume is additionally clamped to the configured range.) -/
theorem map_hand_interpolation (cfg : ThereminConfig) (x y : ℤ) (oh : Option (ℤ × ℤ))
    (hH : 0 < cfg.frame_height) (hy0 : 0 ≤ y) (hy1 : y ≤ cfg.frame_height)
    (hvol : cfg.volume_range.1 ≤ cfg.volume_range.2) :
    (cfg.left_hand_controls = "volume" → cfg.right_hand_controls = "frequency" →
      (map_hand_to_parameters cfg (some (x, y)) oh).2
          = cfg.volume_range.2 - (cfg.volume_range.2 - cfg.volume_range.1) *
              ((y : ℚ) / (cfg.frame_height : ℚ)) ∧
      (map_hand_to_parameters cfg oh (some (x, y))).1
          = cfg.frequency_range.1 + (cfg.frequency_range.2 - cfg.frequency_range.1) *
              ((y : ℚ) / (cfg.frame_height : ℚ))) ∧
    (cfg.left_hand_controls = "frequency" → cfg.right_hand_controls = "volume" →
      (map_hand_to_parameters cfg (some (x, y)) oh).1
          = cfg.frequency_range.1 + (cfg.frequency_range.2 - cfg.frequency_range.1) *
              ((y : ℚ) / (cfg.frame_height : ℚ)) ∧
      (map_hand_to_parameters cfg oh (some (x, y))).2
          = cfg.volume_range.2 - (cfg.volume_range.2 - cfg.volume_range.1) *
              ((y : ℚ) / (cfg.frame_height : ℚ))) := by
  have hiv := interpVol_eq cfg y hH hy0 hy1 hvol
  have hne1 : ("volume" : String) ≠ "frequency" := by decide
  have hne2 : ("frequency" : String) ≠ "volume" := by decide
  constructor
  · intro hL hR
    constructor <;> cases oh <;>
      simp [map_hand_to_parameters, hL, hR, hne1, hne2, hiv, interpFreq]
  · intro hL hR
    constructor <;> cases oh <;>
      simp [map_hand_to_parameters, hL, hR, hne1, hne2, hiv, interpFreq]

/-- Witness for the amended C6 at the default configuration with y = 240
and no other hand. -/
theorem map_hand_interpolation_witness :
    ((0 : ℤ) < defaultConfig.frame_height ∧ (0 : ℤ) ≤ 240 ∧
      (240 : ℤ) ≤ defaultConfig.frame_height ∧
      defaultConfig.volume_range.1 ≤ defaultConfig.volume_range.2) ∧
    ((defaultConfig.left_hand_controls = "volume" →
        defaultConfig.right_hand_controls = "frequency" →
      (map_hand_to_parameters defaultConfig (some (100, 240)) none).2
          = defaultConfig.volume_range.2 -
              (defaultConfig.volume_range.2 - defaultConfig.volume_range.1) *
              ((240 : ℚ) / (defaultConfig.frame_height : ℚ)) ∧
      (map_hand_to_parameters defaultConfig none (some (100, 240))).1
          = defaultConfig.frequency_range.1 +
              (defaultConfig.frequency_range.2 - defaultConfig.frequency_range.1) *
              ((240 : ℚ) / (defaultConfig.frame_height : ℚ))) ∧
    (defaultConfig.left_hand_controls = "frequency" →
        defaultConfig.right_hand_controls = "volume" →
      (map_hand_to_parameters defaultConfig (some (100, 240)) none).1
          = defaultConfig.frequency_range.1 +
              (defaultConfig.frequency_range.2 - defaultConfig.frequency_range.1) *
              ((240 : ℚ) / (defaultConfig.frame_height : ℚ)) ∧
      (map_hand_to_parameters defaultConfig none (some (100, 240))).2
          = defaultConfig.volume_range.2 -
              (defaultConfig.volume_range.2 - defaultConfig.volume_range.1) *
              ((240 : ℚ) / (defaultConfig.frame_height : ℚ)))) :=
  ⟨by decide,
    map_hand_interpolation defaultConfig 100 240 none (by decide) (by decide)
      (by decide) (by decide)⟩

/-! ### Audio engine (`AudioEngine` in `theremin_backend.py`), modelled over `ℝ` -/

/-- Mutable state of `AudioEngine`: current frequency, volume, wave type and
the running phase accumulator, plus the `is_playing` flag. -/
structure AudioState where
  frequency : ℝ
  volume : ℝ
  wave_type : String
  current_phase : ℝ
  is_playing : Bool

/-- One waveform sample, as computed in `generate_wave` from `t_global`:
sine, square (`np.sign` of the sine), sawtooth and triangle as written in
the source; any other string falls through to the sine branch. -/
noncomputable def waveSample (wt : String) (f t : ℝ) : ℝ :=
  if wt = "sine" then Real.sin (2 * Real.pi * f * t)
  else if wt = "square" then Real.sign (Real.sin (2 * Real.pi * f * t))
  else if wt = "sawtooth" then 2 * (t * f - ⌊0.5 + t * f⌋)
  else if wt = "triangle" then 2 * |2 * (t * f - ⌊t * f + 0.5⌋)| - 1
  else Real.sin (2 * Real.pi * f * t)

/-- `np.clip(wave, -0.9, 0.9)`: `min(0.9, max(wave, -0.9))`. -/
noncomputable def clip (x : ℝ) : ℝ := min (max x (-0.9)) 0.9

/-- Python's float `%` for a positive divisor: `a - b * ⌊a / b⌋`. -/
noncomputable def fmod (a b : ℝ) : ℝ := a - b * ⌊a / b⌋

/-- Embedding of `AudioEngine.generate_wave`: the buffer of `num_samples`
samples evaluated at `t_global = i / sample_rate + current_phase`, scaled
by the volume and clipped, together with the updated state in which the
phase accumulator has been advanced by `num_samples / sample_rate` and
wrapped modulo the current period (modulo 1.0 when the frequency is not
positive). -/
noncomputable def generate_wave (cfg : ThereminConfig) (s : AudioState)
    (num_samples : ℕ) : List ℝ × AudioState :=
  let sr : ℝ := (cfg.sample_rate : ℝ)
  let buf := (List.range num_samples).map fun (i : ℕ) =>
    clip (s.volume * waveSample s.wave_type s.frequency ((i : ℝ) / sr + s.current_phase))
  let period : ℝ := if s.frequency > 0 then 1 / s.frequency else 1
  let phase : ℝ := fmod (s.current_phase + (num_samples : ℝ) / sr) period
  (buf, { s with current_phase := phase })

/-- Embedding of `AudioEngine.update_parameters`. -/
def update_parameters (s : AudioState) (frequency volume : ℝ) : AudioState :=
  { s with frequency := frequency, volume := volume }

/-- The four wave-type strings accepted by `AudioEngine.set_wave_type`. -/
def valid_wave_types : List String := ["sine", "square", "sawtooth", "triangle"]

/-- Embedding of `AudioEngine.set_wave_type`: the wave type changes only
when the string is one of the four valid kinds. -/
def set_wave_type (s : AudioState) (wt : String) : AudioState :=
  if wt ∈ valid_wave_types then { s with wave_type := wt } else s

/-- Embedding of `AudioEngine.audio_callback`: when not playing or when the
volume is below 0.01 the buffer is `frame_count` zeros and the state is
untouched; otherwise the wave generator runs. -/
noncomputable def audio_callback (cfg : ThereminConfig) (s : AudioState)
    (frame_count : ℕ) : List ℝ × AudioState :=
  if s.is_playing = false ∨ s.volume < 0.01 then (List.replicate frame_count 0, s)
  else generate_wave cfg s frame_count

/-- The amplitude step bound for a sine wave of frequency `f` sampled at
rate `sr`: the maximal slope `2 * π * f` of the unit sine times the sample
interval `1 / sr`. -/
noncomputable def stepBound (f sr : ℝ) : ℝ := 2 * Real.pi * f / sr

/-- The buffer of a `generate_wave` call, as a mapped range. -/
lemma generate_wave_buf (cfg : ThereminConfig) (s : AudioState) (n : ℕ) :
    (generate_wave cfg s n).1 = (List.range n).map fun (i : ℕ) =>
      clip (s.volume * waveSample s.wave_type s.frequency
        ((i : ℝ) / (cfg.sample_rate : ℝ) + s.current_phase)) := rfl

/-- The `i`-th sample of a generated buffer, for `i < num_samples`. -/
lemma generate_wave_getD (cfg : ThereminConfig) (s : AudioState) (n i : ℕ)
    (h : i < n) :
    (generate_wave cfg s n).1.getD i 0 =
      clip (s.volume * waveSample s.wave_type s.frequency
        ((i : ℝ) / (cfg.sample_rate : ℝ) + s.current_phase)) := by
  rw [generate_wave_buf, List.getD_eq_getElem?_getD, List.getElem?_map,
    List.getElem?_range h]
  rfl

/-- A generated buffer has exactly `num_samples` samples. -/
lemma generate_wave_length (cfg : ThereminConfig) (s : AudioState) (n : ℕ) :
    (generate_wave cfg s n).1.length = n := by
  rw [generate_wave_buf, List.length_map, List.length_range]

/-- The state returned by `generate_wave` differs from the input state only
in the phase accumulator, which is advanced and wrapped. -/
lemma generate_wave_state (cfg : ThereminConfig) (s : AudioState) (n : ℕ) :
    (generate_wave cfg s n).2.frequency = s.frequency ∧
    (generate_wave cfg s n).2.volume = s.volume ∧
    (generate_wave cfg s n).2.wave_type = s.wave_type ∧
    (generate_wave cfg s n).2.is_playing = s.is_playing ∧
    (generate_wave cfg s n).2.current_phase =
      fmod (s.current_phase + (n : ℝ) / (cfg.sample_rate : ℝ))
        (if s.frequency > 0 then 1 / s.frequency else 1) :=
  ⟨rfl, rfl, rfl, rfl, rfl⟩

/-- C4: each call of `generate_wave` with `num_samples` samples advances the
phase accumulator by exactly `num_samples / sample_rate`, wraps it modulo
the period `1 / frequency` (modulo 1.0 when the frequency is not positive),
and evaluates sample `i` at the time offset `i / sample_rate +
current_phase`. -/
theorem generate_wave_phase_advance (cfg : ThereminConfig) (s : AudioState)
    (n i : ℕ) (h : i < n) :
    (generate_wave cfg s n).2.current_phase =
      fmod (s.current_phase + (n : ℝ) / (cfg.sample_rate : ℝ))
        (if s.frequency > 0 then 1 / s.frequency else 1) ∧
    (generate_wave cfg s n).1.length = n ∧
    (generate_wave cfg s n).1.getD i 0 =
      clip (s.volume * waveSample s.wave_type s.frequency
        ((i : ℝ) / (cfg.sample_rate : ℝ) + s.current_phase)) :=
  ⟨(generate_wave_state cfg s n).2.2.2.2, generate_wave_length cfg s n,
    generate_wave_getD cfg s n i h⟩

/-- Witness for C4 at the default configuration with a one-sample buffer. -/
theorem generate_wave_phase_advance_witness :
    0 < 1 ∧
    ((generate_wave defaultConfig ⟨440, 0, "sine", 0, true⟩ 1).2.current_phase =
      fmod ((⟨440, 0, "sine", 0, true⟩ : AudioState).current_phase +
          (1 : ℝ) / (defaultConfig.sample_rate : ℝ))
        (if (⟨440, 0, "sine", 0, true⟩ : AudioState).frequency > 0 then
          1 / (⟨440, 0, "sine", 0, true⟩ : AudioState).frequency else 1) ∧
    (generate_wave defaultConfig ⟨440, 0, "sine", 0, true⟩ 1).1.length = 1 ∧
    (generate_wave defaultConfig ⟨440, 0, "sine", 0, true⟩ 1).1.getD 0 0 =
      clip ((⟨440, 0, "sine", 0, true⟩ : AudioState).volume *
        waveSample "sine" 440 ((0 : ℝ) / (defaultConfig.sample_rate : ℝ) + 0))) :=
  ⟨by decide, by
    simpa using generate_wave_phase_advance defaultConfig ⟨440, 0, "sine", 0, true⟩ 1 0 (by decide)⟩

/-- The clip to `[-0.9, 0.9]` bounds every sample's magnitude by 0.9. -/
lemma abs_clip_le (x : ℝ) : |clip x| ≤ 0.9 := by
  rw [clip, abs_le]
  exact ⟨le_min (le_max_right _ _) (by norm_num), min_le_right _ _⟩

/-- C5: every sample of every generated buffer has magnitude at most the
safety margin 0.9, for every frequency, volume, wave type and sample
count. -/
theorem generate_wave_clipped (cfg : ThereminConfig) (s : AudioState) (n : ℕ)
    (x : ℝ) (hx : x ∈ (generate_wave cfg s n).1) : |x| ≤ 0.9 := by
  rw [generate_wave_buf, List.mem_map] at hx
  obtain ⟨i, -, rfl⟩ := hx
  exact abs_clip_le _

/-- Witness for C5: the single sample of a volume-zero buffer. -/
theorem generate_wave_clipped_witness :
    (0 : ℝ) ∈ (generate_wave defaultConfig ⟨440, 0, "sine", 0, true⟩ 1).1 ∧
    |(0 : ℝ)| ≤ 0.9 := by
  have hmem : (0 : ℝ) ∈ (generate_wave defaultConfig ⟨440, 0, "sine", 0, true⟩ 1).1 := by
    rw [generate_wave_buf]
    simp only [List.range_succ, List.range_zero, List.nil_append, List.map_cons,
      List.map_nil, List.mem_singleton, zero_mul]
    norm_num [clip]
  exact ⟨hmem, generate_wave_clipped defaultConfig ⟨440, 0, "sine", 0, true⟩ 1 0 hmem⟩

/-- C7: after `set_wave_type` with any of the four valid kinds, the very
next `generate_wave` buffer is computed with that waveform kind (same
volume, frequency and phase as before the switch). -/
theorem set_wave_type_next_buffer (cfg : ThereminConfig) (s : AudioState)
    (wt : String) (n i : ℕ) (hwt : wt ∈ valid_wave_types) (hi : i < n) :
    (set_wave_type s wt).wave_type = wt ∧
    (generate_wave cfg (set_wave_type s wt) n).1.getD i 0 =
      clip (s.volume * waveSample wt s.frequency
        ((i : ℝ) / (cfg.sample_rate : ℝ) + s.current_phase)) := by
  have hs : set_wave_type s wt = { s with wave_type := wt } := by
    simp [set_wave_type, hwt]
  rw [hs]
  exact ⟨rfl, generate_wave_getD cfg { s with wave_type := wt } n i hi⟩

/-- Witness for C7: switching to "square" takes effect on a one-sample
buffer. -/
theorem set_wave_type_next_buffer_witness :
    "square" ∈ valid_wave_types ∧
    ((set_wave_type ⟨440, 0, "sine", 0, true⟩ "square").wave_type = "square" ∧
    (generate_wave defaultConfig (set_wave_type ⟨440, 0, "sine", 0, true⟩ "square") 1).1.getD 0 0 =
      clip ((⟨440, 0, "sine", 0, true⟩ : AudioState).volume *
        waveSample "square" 440 ((0 : ℝ) / (defaultConfig.sample_rate : ℝ) + 0))) :=
  ⟨by decide, by
    simpa using set_wave_type_next_buffer defaultConfig ⟨440, 0, "sine", 0, true⟩ "square" 1 0 (by decide) (by decide)⟩

/-- C9: whenever `audio_callback` runs with `is_playing` false or with
volume below 0.01, it returns exactly `frame_count` zero samples and the
engine state — phase accumulator, frequency, volume and wave type — is
returned unchanged. -/
theorem audio_callback_silent (cfg : ThereminConfig) (s : AudioState)
    (frame_count : ℕ) (h : s.is_playing = false ∨ s.volume < 0.01) :
    audio_callback cfg s frame_count = (List.replicate frame_count 0, s) := by
  rw [audio_callback, if_pos h]

/-- Witness for C9: a stopped engine produces a zero buffer. -/
theorem audio_callback_silent_witness :
    ((⟨440, 1, "sine", 0, false⟩ : AudioState).is_playing = false ∨
      (⟨440, 1, "sine", 0, false⟩ : AudioState).volume < 0.01) ∧
    audio_callback defaultConfig ⟨440, 1, "sine", 0, false⟩ 4 =
      (List.replicate 4 0, ⟨440, 1, "sine", 0, false⟩) :=
  ⟨Or.inl rfl, audio_callback_silent defaultConfig ⟨440, 1, "sine", 0, false⟩ 4 (Or.inl rfl)⟩

/-- The sine function is 1-Lipschitz. -/
lemma abs_sin_sub_sin_le (a b : ℝ) : |Real.sin a - Real.sin b| ≤ |a - b| := by
  rw [Real.sin_sub_sin]
  have h1 : |Real.sin ((a - b) / 2)| ≤ |(a - b) / 2| := Real.abs_sin_le_abs
  have h2 : |Real.cos ((a + b) / 2)| ≤ 1 := Real.abs_cos_le_one _
  have h3 : (0 : ℝ) ≤ |Real.sin ((a - b) / 2)| := abs_nonneg _
  have h4 : (0 : ℝ) ≤ |(a - b) / 2| := abs_nonneg _
  calc |2 * Real.sin ((a - b) / 2) * Real.cos ((a + b) / 2)|
      = 2 * |Real.sin ((a - b) / 2)| * |Real.cos ((a + b) / 2)| := by
        rw [abs_mul, abs_mul, abs_two]
    _ ≤ 2 * |(a - b) / 2| * 1 := by nlinarith
    _ = |a - b| := by rw [abs_div, abs_two]; ring

/-- The clip to `[-0.9, 0.9]` is 1-Lipschitz. -/
lemma abs_clip_sub_clip_le (x y : ℝ) : |clip x - clip y| ≤ |x - y| := by
  rw [clip, clip]
  calc |min (max x (-0.9)) 0.9 - min (max y (-0.9)) 0.9|
      ≤ max |max x (-0.9) - max y (-0.9)| |(0.9 : ℝ) - 0.9| :=
        abs_min_sub_min_le_max _ _ _ _
    _ = |max x (-0.9) - max y (-0.9)| := by
        rw [sub_self, abs_zero]; exact max_eq_left (abs_nonneg _)
    _ ≤ |x - y| := abs_max_sub_max_le_abs x y (-0.9)

/-- Adjacent clipped sine samples differ by at most the slope bound times
the distance of the two sample times. -/
lemma clip_sin_step (f v a b : ℝ) (hf : 0 ≤ f) (hv : 0 ≤ v) :
    |clip (v * Real.sin (2 * Real.pi * f * a)) -
        clip (v * Real.sin (2 * Real.pi * f * b))| ≤
      v * (2 * Real.pi * f) * |a - b| := by
  have hpf : (0 : ℝ) ≤ 2 * Real.pi * f := by positivity
  calc |clip (v * Real.sin (2 * Real.pi * f * a)) -
        clip (v * Real.sin (2 * Real.pi * f * b))|
      ≤ |v * Real.sin (2 * Real.pi * f * a) - v * Real.sin (2 * Real.pi * f * b)| :=
        abs_clip_sub_clip_le _ _
    _ = v * |Real.sin (2 * Real.pi * f * a) - Real.sin (2 * Real.pi * f * b)| := by
        rw [← mul_sub, abs_mul, abs_of_nonneg hv]
    _ ≤ v * |2 * Real.pi * f * a - 2 * Real.pi * f * b| :=
        mul_le_mul_of_nonneg_left (abs_sin_sub_sin_le _ _) hv
    _ = v * (2 * Real.pi * f) * |a - b| := by
        rw [← mul_sub, abs_mul, abs_of_nonneg hpf]; ring

/-- Wrapping the phase modulo the period `1 / f` does not change the sine
value at any later time offset `c`: the `%=` in `generate_wave` is
sample-exact for the sine waveform as long as the frequency is unchanged. -/
lemma sin_add_fmod (f c x : ℝ) (hf : 0 < f) :
    Real.sin (2 * Real.pi * f * (c + fmod x (1 / f))) =
      Real.sin (2 * Real.pi * f * (c + x)) := by
  have hf' : f ≠ 0 := ne_of_gt hf
  rw [fmod]
  have h1 : x / (1 / f) = x * f := by field_simp
  rw [h1]
  have h3 : f * (1 / f) = 1 := mul_one_div_cancel hf'
  have h2 : 2 * Real.pi * f * (c + (x - 1 / f * (⌊x * f⌋ : ℝ))) =
      2 * Real.pi * f * (c + x) - (⌊x * f⌋ : ℝ) * (2 * Real.pi) := by
    linear_combination (-(2 * Real.pi * (⌊x * f⌋ : ℝ))) * h3
  rw [h2, Real.sin_sub_int_mul_two_pi]

/-- A pair of clipped sine samples of the engine, taken at times one sample
interval apart, differs by at most `stepBound`. -/
lemma sine_pair_bound (cfg : ThereminConfig) (s : AudioState) (a b : ℝ)
    (hf : 0 < s.frequency) (hsr : 0 < (cfg.sample_rate : ℝ))
    (hv0 : 0 ≤ s.volume) (hv1 : s.volume ≤ 1)
    (hab : a - b = 1 / (cfg.sample_rate : ℝ)) :
    |clip (s.volume * Real.sin (2 * Real.pi * s.frequency * a)) -
        clip (s.volume * Real.sin (2 * Real.pi * s.frequency * b))| ≤
      stepBound s.frequency (cfg.sample_rate : ℝ) := by
  have hpf : (0 : ℝ) ≤ 2 * Real.pi * s.frequency / (cfg.sample_rate : ℝ) := by
    have h1 : (0 : ℝ) ≤ 2 * Real.pi * s.frequency := by positivity
    exact div_nonneg h1 hsr.le
  calc |clip (s.volume * Real.sin (2 * Real.pi * s.frequency * a)) -
        clip (s.volume * Real.sin (2 * Real.pi * s.frequency * b))|
      ≤ s.volume * (2 * Real.pi * s.frequency) * |a - b| :=
        clip_sin_step s.frequency s.volume a b hf.le hv0
    _ = s.volume * (2 * Real.pi * s.frequency / (cfg.sample_rate : ℝ)) := by
        rw [hab, abs_of_pos (one_div_pos.mpr hsr)]; ring
    _ ≤ 1 * (2 * Real.pi * s.frequency / (cfg.sample_rate : ℝ)) :=
        mul_le_mul_of_nonneg_right hv1 hpf
    _ = stepBound s.frequency (cfg.sample_rate : ℝ) := by rw [stepBound, one_mul]

/-- C3, amended: two consecutive buffers produced by `generate_wave` at an
unchanged frequency and volume, with the sine waveform, a positive sample
rate and a volume in `[0, 1]`, concatenate without any sample-to-sample
jump exceeding the amplitude step bound `2 * π * frequency / sample_rate`.
(The counterexample shows this fails when the frequency changes between
the buffers: the phase accumulator is kept in time units, not in cycles.) -/
theorem generate_wave_sine_continuity (cfg : ThereminConfig) (s : AudioState)
    (n m : ℕ) (hwt : s.wave_type = "sine") (hf : 0 < s.frequency)
    (hsr : 0 < (cfg.sample_rate : ℝ)) (hv0 : 0 ≤ s.volume) (hv1 : s.volume ≤ 1) :
    ∀ i, i + 1 < n + m →
      |((generate_wave cfg s n).1 ++
          (generate_wave cfg (generate_wave cfg s n).2 m).1).getD (i + 1) 0 -
        ((generate_wave cfg s n).1 ++
          (generate_wave cfg (generate_wave cfg s n).2 m).1).getD i 0| ≤
        stepBound s.frequency (cfg.sample_rate : ℝ) := by
  intro i hi
  have hw : ∀ t : ℝ, waveSample s.wave_type s.frequency t =
      Real.sin (2 * Real.pi * s.frequency * t) := by
    intro t
    rw [hwt, waveSample, if_pos rfl]
  have hst := generate_wave_state cfg s n
  have hphase : (generate_wave cfg s n).2.current_phase =
      fmod (s.current_phase + (n : ℝ) / (cfg.sample_rate : ℝ)) (1 / s.frequency) := by
    rw [hst.2.2.2.2, if_pos hf]
  have hl1 := generate_wave_length cfg s n
  have hl2 := generate_wave_length cfg (generate_wave cfg s n).2 m
  rcases lt_trichotomy (i + 1) n with hcase | hcase | hcase
  · -- both samples in the first buffer
    rw [List.getD_append _ _ _ _ (by rw [hl1]; omega),
      List.getD_append _ _ _ _ (by rw [hl1]; omega),
      generate_wave_getD cfg s n (i + 1) hcase,
      generate_wave_getD cfg s n i (by omega), hw, hw]
    exact sine_pair_bound cfg s _ _ hf hsr hv0 hv1 (by push_cast; ring)
  · -- junction between the buffers: i + 1 = n, so m ≥ 1 and n ≥ 1
    have hn1 : 1 ≤ n := by omega
    have hm1 : 0 < m := by omega
    rw [List.getD_append_right _ _ _ _ (by rw [hl1]; omega),
      List.getD_append _ _ _ _ (by rw [hl1]; omega), hl1]
    have hidx : i + 1 - n = 0 := by omega
    rw [hidx,
      generate_wave_getD cfg (generate_wave cfg s n).2 m 0 hm1,
      generate_wave_getD cfg s n i (by omega),
      hst.2.1, hst.2.2.1, hst.1, hw, hw, hphase]
    have harg : (0 : ℕ) / (cfg.sample_rate : ℝ) +
        fmod (s.current_phase + (n : ℝ) / (cfg.sample_rate : ℝ)) (1 / s.frequency) =
        0 + fmod (s.current_phase + (n : ℝ) / (cfg.sample_rate : ℝ)) (1 / s.frequency) := by
      norm_num
    rw [harg, sin_add_fmod _ _ _ hf]
    have hab : 0 + (s.current_phase + (n : ℝ) / (cfg.sample_rate : ℝ)) -
        ((i : ℝ) / (cfg.sample_rate : ℝ) + s.current_phase) =
        1 / (cfg.sample_rate : ℝ) := by
      have hni : (n : ℝ) = (i : ℝ) + 1 := by
        have : n = i + 1 := by omega
        rw [this]; push_cast; ring
      rw [hni]; ring
    exact sine_pair_bound cfg s _ _ hf hsr hv0 hv1 hab
  · -- both samples in the second buffer
    have hj1 : i - n < m := by omega
    have hj2 : i + 1 - n < m := by omega
    rw [List.getD_append_right _ _ _ _ (by rw [hl1]; omega),
      List.getD_append_right _ _ _ _ (by rw [hl1]; omega), hl1,
      generate_wave_getD cfg (generate_wave cfg s n).2 m (i + 1 - n) hj2,
      generate_wave_getD cfg (generate_wave cfg s n).2 m (i - n) hj1,
      hst.2.1, hst.2.2.1, hst.1, hw, hw, hphase,
      sin_add_fmod _ _ _ hf, sin_add_fmod _ _ _ hf]
    have hab : ((i + 1 - n : ℕ) : ℝ) / (cfg.sample_rate : ℝ) +
        (s.current_phase + (n : ℝ) / (cfg.sample_rate : ℝ)) -
        (((i - n : ℕ) : ℝ) / (cfg.sample_rate : ℝ) +
          (s.current_phase + (n : ℝ) / (cfg.sample_rate : ℝ))) =
        1 / (cfg.sample_rate : ℝ) := by
      have h1 : ((i + 1 - n : ℕ) : ℝ) = ((i - n : ℕ) : ℝ) + 1 := by
        have : i + 1 - n = (i - n) + 1 := by omega
        rw [this]; push_cast; ring
      rw [h1]; ring
    exact sine_pair_bound cfg s _ _ hf hsr hv0 hv1 hab

/-- The configuration used in the C3 counterexample and witness: default
configuration at the low sample rate 16 (the phase-wrapping arithmetic does
not depend on the magnitude of the sample rate). -/
def cfgC3 : ThereminConfig := { sample_rate := 16 }

/-- The engine state used in the C3 counterexample and witness: sine wave
at frequency 1, full volume, phase accumulator 0. -/
def sC3 : AudioState := ⟨1, 1, "sine", 0, true⟩

/-- C3 counterexample: generating 5 samples at frequency 1 and sample rate
16 ends the first buffer at the clipped sine peak 0.9 with wrapped phase
5/16; changing the frequency to 28/15 via `update_parameters` makes the
next buffer start at `sin(7π/6) = -1/2`, a jump of 1.4, which exceeds the
amplitude step bound `2π·(28/15)/16 = 7π/30 < 0.735` for the current
frequency — the time-based phase accumulator does not give phase
continuity across a frequency change. -/
theorem generate_wave_continuity_counterexample :
    stepBound (update_parameters (generate_wave cfgC3 sC3 5).2 (28/15) 1).frequency
        (cfgC3.sample_rate : ℝ) <
      |(generate_wave cfgC3
          (update_parameters (generate_wave cfgC3 sC3 5).2 (28/15) 1) 1).1.getD 0 0 -
        (generate_wave cfgC3 sC3 5).1.getD 4 0| := by
  have hpi := Real.pi_lt_d2
  have e1 : (generate_wave cfgC3 sC3 5).1.getD 4 0 = 0.9 := by
    rw [generate_wave_getD cfgC3 sC3 5 4 (by norm_num)]
    have hw : waveSample sC3.wave_type sC3.frequency
        ((4 : ℕ) / (cfgC3.sample_rate : ℝ) + sC3.current_phase) =
        Real.sin (Real.pi / 2) := by
      rw [show sC3.wave_type = "sine" from rfl, waveSample, if_pos rfl]
      have harg : 2 * Real.pi * sC3.frequency *
          ((4 : ℕ) / (cfgC3.sample_rate : ℝ) + sC3.current_phase) = Real.pi / 2 := by
        rw [show sC3.frequency = 1 from rfl, show sC3.current_phase = 0 from rfl,
          show (cfgC3.sample_rate : ℝ) = 16 by norm_num [cfgC3]]
        push_cast
        ring
      rw [harg]
    rw [hw, Real.sin_pi_div_two]
    norm_num [clip, show sC3.volume = 1 from rfl]
  have ephase : (generate_wave cfgC3 sC3 5).2.current_phase = 5 / 16 := by
    rw [(generate_wave_state cfgC3 sC3 5).2.2.2.2,
      if_pos (show sC3.frequency > 0 by norm_num [sC3]),
      show sC3.current_phase = 0 from rfl, show sC3.frequency = 1 from rfl,
      show (cfgC3.sample_rate : ℝ) = 16 by norm_num [cfgC3], fmod]
    have hfloor : ⌊(0 + (5 : ℕ) / (16 : ℝ)) / (1 / 1)⌋ = 0 := by
      rw [Int.floor_eq_zero_iff]
      constructor <;> push_cast <;> norm_num
    rw [hfloor]
    push_cast
    norm_num
  have e2 : (generate_wave cfgC3
      (update_parameters (generate_wave cfgC3 sC3 5).2 (28/15) 1) 1).1.getD 0 0 =
      -(1 / 2) := by
    rw [generate_wave_getD cfgC3 _ 1 0 (by norm_num)]
    have hw : waveSample (update_parameters (generate_wave cfgC3 sC3 5).2 (28/15) 1).wave_type
        (update_parameters (generate_wave cfgC3 sC3 5).2 (28/15) 1).frequency
        ((0 : ℕ) / (cfgC3.sample_rate : ℝ) +
          (update_parameters (generate_wave cfgC3 sC3 5).2 (28/15) 1).current_phase) =
        Real.sin (Real.pi / 6 + Real.pi) := by
      rw [show (update_parameters (generate_wave cfgC3 sC3 5).2 (28/15) 1).wave_type =
          "sine" from rfl, waveSample, if_pos rfl]
      have harg : 2 * Real.pi *
          (update_parameters (generate_wave cfgC3 sC3 5).2 (28/15) 1).frequency *
          ((0 : ℕ) / (cfgC3.sample_rate : ℝ) +
            (update_parameters (generate_wave cfgC3 sC3 5).2 (28/15) 1).current_phase) =
          Real.pi / 6 + Real.pi := by
        rw [show (update_parameters (generate_wave cfgC3 sC3 5).2 (28/15) 1).frequency =
            28/15 from rfl,
          show (update_parameters (generate_wave cfgC3 sC3 5).2 (28/15) 1).current_phase =
            (generate_wave cfgC3 sC3 5).2.current_phase from rfl, ephase,
          show (cfgC3.sample_rate : ℝ) = 16 by norm_num [cfgC3]]
        push_cast
        ring
      rw [harg]
    rw [hw, Real.sin_add_pi, Real.sin_pi_div_six]
    norm_num [clip, show (update_parameters (generate_wave cfgC3 sC3 5).2 (28/15) 1).volume =
      1 from rfl]
  rw [e1, e2,
    show (update_parameters (generate_wave cfgC3 sC3 5).2 (28/15) 1).frequency =
      28/15 from rfl,
    show (cfgC3.sample_rate : ℝ) = 16 by norm_num [cfgC3], stepBound]
  have habs : |(-(1 / 2) : ℝ) - 0.9| = 1.4 := by
    rw [show (-(1 / 2) : ℝ) - 0.9 = -(1.4) by norm_num, abs_neg,
      abs_of_nonneg (by norm_num)]
  rw [habs]
  nlinarith

/-- Witness for the amended C3: two consecutive one-sample sine buffers at
frequency 1 and sample rate 16. -/
theorem generate_wave_sine_continuity_witness :
    (sC3.wave_type = "sine" ∧ 0 < sC3.frequency ∧ (0 : ℝ) < (cfgC3.sample_rate : ℝ) ∧
      0 ≤ sC3.volume ∧ sC3.volume ≤ 1) ∧
    (∀ i, i + 1 < 1 + 1 →
      |((generate_wave cfgC3 sC3 1).1 ++
          (generate_wave cfgC3 (generate_wave cfgC3 sC3 1).2 1).1).getD (i + 1) 0 -
        ((generate_wave cfgC3 sC3 1).1 ++
          (generate_wave cfgC3 (generate_wave cfgC3 sC3 1).2 1).1).getD i 0| ≤
        stepBound sC3.frequency (cfgC3.sample_rate : ℝ)) :=
  ⟨⟨rfl, by norm_num [sC3], by norm_num [cfgC3], by norm_num [sC3], by norm_num [sC3]⟩,
    generate_wave_sine_continuity cfgC3 sC3 1 1 rfl (by norm_num [sC3])
      (by norm_num [cfgC3]) (by norm_num [sC3]) (by norm_num [sC3])⟩

/-- Embedding of the `/api/wave_type` route of `main.py`: the request body
optionally carries a wave-type string (defaulting to "sine" when absent);
an invalid string is rejected with success `false` and without touching the
engine, otherwise `set_wave_type` runs. -/
def update_wave_type_route (body : Option String) (s : AudioState) :
    Bool × AudioState :=
  let wt := body.getD "sine"
  if wt ∈ valid_wave_types then (true, set_wave_type s wt) else (false, s)

/-- C10: `set_wave_type` with a string that is not one of the four valid
kinds raises no error and leaves the engine state (wave type included)
unchanged, and the HTTP wave_type endpoint rejects such a string without
changing the state. -/
theorem set_wave_type_invalid (s : AudioState) (wt : String)
    (h : wt ∉ valid_wave_types) :
    set_wave_type s wt = s ∧ update_wave_type_route (some wt) s = (false, s) := by
  constructor
  · rw [set_wave_type, if_neg h]
  · rw [update_wave_type_route]
    simp only [Option.getD_some]
    rw [if_neg h]

/-- Witness for C10: the string "noise" is rejected. -/
theorem set_wave_type_invalid_witness :
    "noise" ∉ valid_wave_types ∧
    (set_wave_type ⟨440, 0, "sine", 0, true⟩ "noise" = ⟨440, 0, "sine", 0, true⟩ ∧
      update_wave_type_route (some "noise") ⟨440, 0, "sine", 0, true⟩ =
        (false, ⟨440, 0, "sine", 0, true⟩)) :=
  ⟨by decide, set_wave_type_invalid ⟨440, 0, "sine", 0, true⟩ "noise" (by decide)⟩

/-! ### Resource handling of `CorporalTheremin.setup` / `cleanup` / `stop` -/

/-- Exceptions that can propagate out of the modelled methods: the
exception raised by a failing setup step, and the `AttributeError` raised
by calling a method on `None`. -/
inductive PyErr where
  | setupError
  | attributeError
deriving DecidableEq

/-- Resource-relevant attributes of a `CorporalTheremin` instance:
`camera`, `hand_tracker` and `audio_engine` are `None` or constructed
(`camera` carries its `isOpened()` flag), together with flags recording
whether each resource has been released, and the `is_running` flag. -/
structure CTState where
  camera : Option Bool
  camera_released : Bool
  hand_tracker : Bool
  tracker_closed : Bool
  audio_engine : Bool
  audio_cleaned : Bool
  is_running : Bool
deriving DecidableEq

/-- The attribute state set up by `CorporalTheremin.__init__` before
`setup` runs: every resource attribute is `None`. -/
def initCT : CTState :=
  { camera := none, camera_released := false, hand_tracker := false,
    tracker_closed := false, audio_engine := false, audio_cleaned := false,
    is_running := false }

/-- Embedding of `CorporalTheremin.stop`: sets `is_running = False` and then
calls `self.audio_engine.stop()` with no `None` check — an `AttributeError`
when the audio engine was never constructed. -/
def ct_stop (s : CTState) : CTState × Option PyErr :=
  let s := { s with is_running := false }
  if s.audio_engine then (s, none) else (s, some PyErr.attributeError)

/-- Embedding of `CorporalTheremin.cleanup`: first `self.stop()` (whose
exception propagates), then the guarded releases of the audio engine, the
hand tracker and the camera. -/
def ct_cleanup (s : CTState) : CTState × Option PyErr :=
  match ct_stop s with
  | (s, some e) => (s, some e)
  | (s, none) =>
    let s := if s.audio_engine then { s with audio_cleaned := true } else s
    let s := if s.hand_tracker then { s with tracker_closed := true } else s
    let s := match s.camera with
      | some true => { s with camera_released := true }
      | _ => s
    (s, none)

/-- The setup step at which an exception is raised, if any. -/
inductive SetupFailure where
  | noFailure
  | atCamera
  | atTracker
  | atAudio
deriving DecidableEq

/-- Embedding of `CorporalTheremin.setup`, parametrised by which step (the
camera, the `HandTracker` constructor or the `AudioEngine` constructor)
raises: the `try` block assigns each attribute in order until the failing
step; the `except` block calls `cleanup()` and then re-raises — but an
exception raised inside `cleanup()` itself replaces the original one and
the `raise` statement is never reached. -/
def ct_setup (fail : SetupFailure) (s0 : CTState) : CTState × Option PyErr :=
  let attempt : CTState × Option PyErr :=
    if fail = SetupFailure.atCamera then (s0, some PyErr.setupError)
    else
      let s1 := { s0 with camera := some true }
      if fail = SetupFailure.atTracker then (s1, some PyErr.setupError)
      else
        let s2 := { s1 with hand_tracker := true }
        if fail = SetupFailure.atAudio then (s2, some PyErr.setupError)
        else ({ s2 with audio_engine := true }, none)
  match attempt with
  | (s, none) => (s, none)
  | (s, some e) =>
    match ct_cleanup s with
    | (s', none) => (s', some e)
    | (s', some e') => (s', some e')

/-- C8: when the `AudioEngine` construction raises during setup (audio
device unavailable) after the camera was opened and the hand tracker
created, the recovery path itself crashes: `cleanup()` calls `stop()`,
which dereferences the still-`None` `audio_engine` and raises
`AttributeError`, so the camera is never released, the hand tracker is
never closed, and the original exception is replaced instead of being
re-raised.  The same happens when the `HandTracker` construction fails. -/
theorem setup_failure_leaks :
    ((ct_setup SetupFailure.atAudio initCT).2 = some PyErr.attributeError ∧
      (ct_setup SetupFailure.atAudio initCT).1.camera = some true ∧
      (ct_setup SetupFailure.atAudio initCT).1.camera_released = false ∧
      (ct_setup SetupFailure.atAudio initCT).1.hand_tracker = true ∧
      (ct_setup SetupFailure.atAudio initCT).1.tracker_closed = false) ∧
    ((ct_setup SetupFailure.atTracker initCT).2 = some PyErr.attributeError ∧
      (ct_setup SetupFailure.atTracker initCT).1.camera = some true ∧
      (ct_setup SetupFailure.atTracker initCT).1.camera_released = false) := by
  decide

end ThereminCorporal
